import Mathlib

/-!
Verification of `reproduction/sim/parameters.py`: the distribution library
(`Normal`, `Uniform` wrapping `numpy.random.RandomState`) and the frozen
dataclass `Scenario`.

Modelling decisions:
* `numpy.random.RandomState` is external library code.  It is embedded as a
  deterministic stream: a `RandomState` is a seed together with the number of
  raw draws consumed so far, and the raw draws are a fixed computable function
  of seed and index.  `uniform(low, high)` is `low + u * (high - low)` with
  `u` a raw draw in `[0, 1)` (numpy's documented computation); `normal(loc,
  scale)` is `loc + scale * z` with `z` a raw standard-normal draw.  Real
  numbers are modelled as `ℚ`.  Seeding with `None` (system entropy) is
  modelled as a fixed fallback stream; no claim constrains its actual values.
* Python object identity, needed for the shared-default-instance questions, is
  modelled with a small heap: distribution objects live in a store and a
  `Scenario` field holds a reference (index) into it.
* `@dataclass(frozen=True)` semantics (generated `__init__`, `__eq__`,
  `__setattr__`, and the rule that only annotated class attributes become
  fields) are embedded following the Python language/dataclasses definition,
  since the decorator generates that code for this class.
-/

namespace SimParams

/-- Model of `numpy.random.RandomState`: the seed it was constructed with
(`None` = entropy) and the number of raw draws consumed so far. -/
structure RandomState where
  seed : Option Nat
  idx : Nat
  deriving DecidableEq, Repr

/-- The raw unit-interval draw stream backing the generator: a fixed
computable function of seed and draw index with values in `[0, 1)`.
The `none` (entropy) seed is modelled as a fixed fallback stream. -/
def rawUnit (seed : Option Nat) (i : Nat) : ℚ :=
  match seed with
  | some s => (((s * 97 + i * 31 + 7) % 100 : Nat) : ℚ) / 100
  | none => (((i * 31 + 13) % 100 : Nat) : ℚ) / 100

/-- The raw standard-normal draw stream: a fixed computable function of seed
and draw index (values in `[-4, 4)`; the exact law is irrelevant to the
claims, which constrain post-processing, shape and determinism). -/
def rawGauss (seed : Option Nat) (i : Nat) : ℚ :=
  rawUnit seed i * 8 - 4

/-- Draw one unit-interval variate, advancing the generator. -/
def RandomState.nextUnit (rs : RandomState) : ℚ × RandomState :=
  (rawUnit rs.seed rs.idx, ⟨rs.seed, rs.idx + 1⟩)

/-- Draw one standard-normal variate, advancing the generator. -/
def RandomState.nextGauss (rs : RandomState) : ℚ × RandomState :=
  (rawGauss rs.seed rs.idx, ⟨rs.seed, rs.idx + 1⟩)

/-- Draw `n` unit-interval variates, advancing the generator. -/
def RandomState.nextUnitList : RandomState → Nat → List ℚ × RandomState
  | rs, 0 => ([], rs)
  | rs, n + 1 =>
      let p := rs.nextUnit
      let q := p.2.nextUnitList n
      (p.1 :: q.1, q.2)

/-- Draw `n` standard-normal variates, advancing the generator. -/
def RandomState.nextGaussList : RandomState → Nat → List ℚ × RandomState
  | rs, 0 => ([], rs)
  | rs, n + 1 =>
      let p := rs.nextGauss
      let q := p.2.nextGaussList n
      (p.1 :: q.1, q.2)

/-- Result of `sample`: a scalar (when `size` is `None`) or a numpy array
(when `size` is an integer), modelled as a list. -/
inductive SampleResult where
  | scalar (v : ℚ)
  | array (vs : List ℚ)
  deriving DecidableEq, Repr

/-- All values carried by a sample result (the scalar, or the elements). -/
def SampleResult.values : SampleResult → List ℚ
  | .scalar v => [v]
  | .array vs => vs

/-- `class Normal(Distribution)`: mean, std, optional lower-truncation bound,
and the private random stream `_rand` installed by `Distribution.__init__`. -/
structure Normal where
  mean : ℚ
  std : ℚ
  minimum : Option ℚ
  _rand : RandomState
  deriving DecidableEq, Repr

/-- `Normal.__init__(mean, std, minimum, random_state)`: stores the three
parameters and seeds a fresh private stream (`Distribution.__init__`).
No validation is performed by the source. -/
def Normal.init (mean std : ℚ) (minimum : Option ℚ) (random_state : Option Nat) : Normal :=
  ⟨mean, std, minimum, ⟨random_state, 0⟩⟩

/-- `Normal.sample(size)`: draw from the Gaussian via `self._rand.normal`,
then, if `self.minimum` is set, clamp: `max(sample, minimum)` for a scalar,
`sample[sample < minimum] = minimum` elementwise for an array. -/
def Normal.sample (d : Normal) (size : Option Nat) : SampleResult × Normal :=
  match size with
  | none =>
      let p := d._rand.nextGauss
      let raw := d.mean + d.std * p.1
      let v := match d.minimum with
        | none => raw
        | some m => max raw m
      (.scalar v, ⟨d.mean, d.std, d.minimum, p.2⟩)
  | some n =>
      let p := d._rand.nextGaussList n
      let raws := p.1.map (fun z => d.mean + d.std * z)
      let vs := match d.minimum with
        | none => raws
        | some m => raws.map (fun x => if x < m then m else x)
      (.array vs, ⟨d.mean, d.std, d.minimum, p.2⟩)

/-- `class Uniform(Distribution)`: minimum, maximum, and the private random
stream `_rand` installed by `Distribution.__init__`. -/
structure Uniform where
  minimum : ℚ
  maximum : ℚ
  _rand : RandomState
  deriving DecidableEq, Repr

/-- `Uniform.__init__(minimum, maximum, random_state)`: stores the two bounds
and seeds a fresh private stream.  No validation is performed by the source. -/
def Uniform.init (minimum maximum : ℚ) (random_state : Option Nat) : Uniform :=
  ⟨minimum, maximum, ⟨random_state, 0⟩⟩

/-- `Uniform.sample(size)`: `self._rand.uniform(minimum, maximum, size)`,
passed through with no post-processing. -/
def Uniform.sample (d : Uniform) (size : Option Nat) : SampleResult × Uniform :=
  match size with
  | none =>
      let p := d._rand.nextUnit
      (.scalar (d.minimum + p.1 * (d.maximum - d.minimum)), ⟨d.minimum, d.maximum, p.2⟩)
  | some n =>
      let p := d._rand.nextUnitList n
      (.array (p.1.map (fun u => d.minimum + u * (d.maximum - d.minimum))),
       ⟨d.minimum, d.maximum, p.2⟩)

/-- A distribution object on the Python heap: either a `Normal` or a
`Uniform` instance. -/
inductive DistObj where
  | normal (d : Normal)
  | uniform (d : Uniform)
  deriving DecidableEq, Repr

/-- Constructor parameters of a distribution variant (everything except the
seed). -/
inductive DistParams where
  | normalP (mean std : ℚ) (minimum : Option ℚ)
  | uniformP (minimum maximum : ℚ)
  deriving DecidableEq, Repr

/-- Construct a distribution variant from its parameters and a seed. -/
def mkDist : DistParams → Option Nat → DistObj
  | .normalP mean std minimum, s => .normal (Normal.init mean std minimum s)
  | .uniformP minimum maximum, s => .uniform (Uniform.init minimum maximum s)

/-- Dynamic dispatch of `sample` on a distribution object. -/
def DistObj.sample : DistObj → Option Nat → SampleResult × DistObj
  | .normal d, size =>
      let p := d.sample size
      (p.1, .normal p.2)
  | .uniform d, size =>
      let p := d.sample size
      (p.1, .uniform p.2)

/-- The heap of distribution objects; a Python reference is an index. -/
structure Heap where
  objs : List DistObj
  deriving DecidableEq, Repr

/-- The empty heap. -/
def Heap.empty : Heap := ⟨[]⟩

/-- Allocate a fresh object, returning its reference. -/
def Heap.alloc (h : Heap) (o : DistObj) : Nat × Heap :=
  (h.objs.length, ⟨h.objs ++ [o]⟩)

/-- Call `sample(size)` on the object behind reference `r`, updating it in
place (a dangling reference is a no-op returning an empty array; all claims
use valid references). -/
def Heap.sampleAt (h : Heap) (r : Nat) (size : Option Nat) : SampleResult × Heap :=
  match h.objs[r]? with
  | some o =>
      let p := o.sample size
      (p.1, ⟨h.objs.set r p.2⟩)
  | none => (.array [], h)

/-- Run a sequence of `sample` calls (given by their `size` arguments) on the
object behind reference `r`, collecting the results. -/
def Heap.runCalls : Heap → Nat → List (Option Nat) → List SampleResult × Heap
  | h, _, [] => ([], h)
  | h, r, size :: rest =>
      let p := h.sampleAt r size
      let q := Heap.runCalls p.2 r rest
      (p.1 :: q.1, q.2)

/-- The trace of the same call sequence on an isolated distribution value. -/
def DistObj.pureTrace : DistObj → List (Option Nat) → List SampleResult
  | _, [] => []
  | o, size :: rest => (o.sample size).1 :: (o.sample size).2.pureTrace rest

/-- The references evaluated once when the body of `class Scenario` is
executed (module import): the default values of the annotated fields and the
two unannotated class attributes, in source order. -/
structure ScenarioClassAttrs where
  time_to_infection : Nat
  time_positive : Nat
  requiring_inpatient_random : Nat
  time_pos_before_inpatient : Nat
  time_inpatient : Nat
  mortality_rand : Nat
  will_be_infected_rand : Nat
  deriving DecidableEq, Repr

/-- Execute the `class Scenario` body: each `Normal(...)`/`Uniform(...)`
default-value expression is evaluated exactly once, in source order,
allocating one object on the heap (all with `random_state` absent = `None`). -/
def evalScenarioClassBody (h : Heap) : ScenarioClassAttrs × Heap :=
  let a1 := h.alloc (mkDist (.normalP 60 15 (some 0)) none)
  let a2 := a1.2.alloc (mkDist (.uniformP 7 14) none)
  let a3 := a2.2.alloc (mkDist (.uniformP 0 1) none)
  let a4 := a3.2.alloc (mkDist (.uniformP 3 7) none)
  let a5 := a4.2.alloc (mkDist (.uniformP 7 14) none)
  let a6 := a5.2.alloc (mkDist (.uniformP 0 1) none)
  let a7 := a6.2.alloc (mkDist (.uniformP 0 1) none)
  (⟨a1.1, a2.1, a3.1, a4.1, a5.1, a6.1, a7.1⟩, a7.2)

/-- `@dataclass(frozen=True) class Scenario`: its fields are exactly the
annotated class attributes, in source order.  `mortality_rand` and
`will_be_infected_rand` carry no annotation, so the dataclass machinery does
not make them fields: they stay class attributes and do not appear here.
Distribution-valued fields hold references into the heap. -/
structure Scenario where
  run_length : ℚ
  audit_interval : Int
  total_proportion_people_infected : ℚ
  prop_neg_patients_cov_query : ℚ
  time_to_infection : Nat
  time_positive : Nat
  proportion_pos_requiring_inpatient : ℚ
  requiring_inpatient_random : Nat
  time_pos_before_inpatient : Nat
  time_inpatient : Nat
  mortality : ℚ
  random_positive_rate_at_start : ℚ
  open_all_sessions : Bool
  drop_to_two_sessions : Bool
  prop_patients_drop_to_two_sessions : ℚ
  deriving DecidableEq, Repr

/-- The names of the dataclass fields of `Scenario` (the annotated class
attributes, which are also the parameters of the generated `__init__`). -/
def scenarioFieldNames : List String :=
  ["run_length", "audit_interval", "total_proportion_people_infected",
   "prop_neg_patients_cov_query", "time_to_infection", "time_positive",
   "proportion_pos_requiring_inpatient", "requiring_inpatient_random",
   "time_pos_before_inpatient", "time_inpatient", "mortality",
   "random_positive_rate_at_start", "open_all_sessions",
   "drop_to_two_sessions", "prop_patients_drop_to_two_sessions"]

/-- `Scenario()` with every argument defaulted: each scalar field gets its
literal default and each Distribution-valued field gets the reference that was
stored as the class-level default value — the same reference for every
default-constructed instance, since the default expressions were evaluated
once at class-definition time. -/
def Scenario.mkDefault (cls : ScenarioClassAttrs) : Scenario :=
  ⟨200, 1, 8/10, 2/100, cls.time_to_infection, cls.time_positive, 4/10,
   cls.requiring_inpatient_random, cls.time_pos_before_inpatient,
   cls.time_inpatient, 15/100, 0, false, false, 9/10⟩

/-- Python attribute lookup of `mortality_rand` on a `Scenario` instance: the
name is not an instance field, so it resolves to the class attribute — the
same reference for every instance. -/
def Scenario.mortalityRandAttr (_ : Scenario) (cls : ScenarioClassAttrs) : Nat :=
  cls.mortality_rand

/-- Python attribute lookup of `will_be_infected_rand` on a `Scenario`
instance: resolves to the shared class attribute. -/
def Scenario.willBeInfectedRandAttr (_ : Scenario) (cls : ScenarioClassAttrs) : Nat :=
  cls.will_be_infected_rand

/-- The `__setattr__` generated by `@dataclass(frozen=True)`: for a direct
`Scenario` instance it unconditionally raises `FrozenInstanceError`, whatever
the attribute name and the assigned value. -/
def Scenario.setAttr {α : Type} (_ : Scenario) (name : String) (_ : α) :
    Except String Scenario :=
  .error ("FrozenInstanceError: cannot assign to field " ++ name)

/-- The `__eq__` generated by `@dataclass`: compares the tuple of the declared
fields.  Scalar fields compare by value; Distribution-valued fields hold
objects whose classes define no `__eq__`, so they compare by identity, i.e. by
reference. -/
def Scenario.dataclassEq (a b : Scenario) : Bool :=
  a.run_length == b.run_length &&
  a.audit_interval == b.audit_interval &&
  a.total_proportion_people_infected == b.total_proportion_people_infected &&
  a.prop_neg_patients_cov_query == b.prop_neg_patients_cov_query &&
  a.time_to_infection == b.time_to_infection &&
  a.time_positive == b.time_positive &&
  a.proportion_pos_requiring_inpatient == b.proportion_pos_requiring_inpatient &&
  a.requiring_inpatient_random == b.requiring_inpatient_random &&
  a.time_pos_before_inpatient == b.time_pos_before_inpatient &&
  a.time_inpatient == b.time_inpatient &&
  a.mortality == b.mortality &&
  a.random_positive_rate_at_start == b.random_positive_rate_at_start &&
  a.open_all_sessions == b.open_all_sessions &&
  a.drop_to_two_sessions == b.drop_to_two_sessions &&
  a.prop_patients_drop_to_two_sessions == b.prop_patients_drop_to_two_sessions

/-! ### Helper lemmas -/

/-- Raw unit draws lie in `[0, 1)`. -/
theorem rawUnit_mem_Ico (s : Option Nat) (i : Nat) :
    0 ≤ rawUnit s i ∧ rawUnit s i < 1 := by
  cases s with
  | none =>
      constructor
      · unfold rawUnit; positivity
      · unfold rawUnit
        have h : ((i * 31 + 13) % 100 : Nat) < 100 := Nat.mod_lt _ (by norm_num)
        have h2 : (((i * 31 + 13) % 100 : Nat) : ℚ) < 100 := by exact_mod_cast h
        linarith
  | some k =>
      constructor
      · unfold rawUnit; positivity
      · unfold rawUnit
        have h : ((k * 97 + i * 31 + 7) % 100 : Nat) < 100 := Nat.mod_lt _ (by norm_num)
        have h2 : (((k * 97 + i * 31 + 7) % 100 : Nat) : ℚ) < 100 := by exact_mod_cast h
        linarith

/-- `nextUnitList` returns exactly `n` draws. -/
theorem nextUnitList_length : ∀ (n : Nat) (rs : RandomState),
    (rs.nextUnitList n).1.length = n := by
  intro n
  induction n with
  | zero => intro rs; rfl
  | succ k ih =>
      intro rs
      simp only [RandomState.nextUnitList, List.length_cons]
      rw [ih]

/-- Every element of `nextUnitList` is a raw unit draw, hence in `[0, 1)`. -/
theorem nextUnitList_mem : ∀ (n : Nat) (rs : RandomState) (u : ℚ),
    u ∈ (rs.nextUnitList n).1 → 0 ≤ u ∧ u < 1 := by
  intro n
  induction n with
  | zero => intro rs u hu; simp [RandomState.nextUnitList] at hu
  | succ k ih =>
      intro rs u hu
      simp only [RandomState.nextUnitList, List.mem_cons] at hu
      rcases hu with hu | hu
      · subst hu; exact rawUnit_mem_Ico rs.seed rs.idx
      · exact ih _ _ hu

/-- `nextGaussList` returns exactly `n` draws. -/
theorem nextGaussList_length : ∀ (n : Nat) (rs : RandomState),
    (rs.nextGaussList n).1.length = n := by
  intro n
  induction n with
  | zero => intro rs; rfl
  | succ k ih =>
      intro rs
      simp only [RandomState.nextGaussList, List.length_cons]
      rw [ih]

/-- Running a call sequence through a valid heap reference returns the same
results as running it on the referenced object in isolation: `sampleAt` only
touches the object behind the reference. -/
theorem runCalls_fst_of_get : ∀ (calls : List (Option Nat)) (h : Heap) (r : Nat)
    (o : DistObj), h.objs[r]? = some o →
    (Heap.runCalls h r calls).1 = o.pureTrace calls := by
  intro calls
  induction calls with
  | nil => intro h r o _; rfl
  | cons size rest ih =>
      intro h r o hr
      have hlt : r < h.objs.length := (List.getElem?_eq_some.1 hr).1
      simp only [Heap.runCalls, Heap.sampleAt, hr, DistObj.pureTrace, List.cons.injEq]
      refine ⟨trivial, ?_⟩
      exact ih ⟨h.objs.set r (o.sample size).2⟩ r (o.sample size).2
        (List.getElem?_set_self hlt)

/-- Python's `max(x, m)` coincides with the elementwise clamp
`if x < m then m else x`. -/
theorem max_eq_if_lt (x m : ℚ) : max x m = if x < m then m else x := by
  rcases le_or_lt m x with h | h
  · rw [max_eq_left h, if_neg (not_lt.mpr h)]
  · rw [max_eq_right h.le, if_pos h]

/-- Two `Scenario()` constructions with all-default arguments, after the one
execution of the `class Scenario` body on an empty heap: the two instances and
the resulting heap. -/
def defaultScenarioPair : Scenario × Scenario × Heap :=
  (Scenario.mkDefault (evalScenarioClassBody Heap.empty).1,
   Scenario.mkDefault (evalScenarioClassBody Heap.empty).1,
   (evalScenarioClassBody Heap.empty).2)

/-! ### Claim theorems -/

/-- Claim C1: a `Normal` with lower-truncation bound `minimum = m` only ever
produces values `≥ m`: scalar samples (`size` absent) and every element of an
array sample of requested length `n`; each underlying draw strictly below `m`
is replaced by exactly `m`, and draws `≥ m` pass through unchanged (the sample
equals the untruncated sample clamped pointwise at `m`). -/
theorem normal_sample_truncation (d : Normal) (m : ℚ) (hm : d.minimum = some m)
    (size : Option Nat) :
    (∀ v ∈ ((d.sample size).1).values, m ≤ v) ∧
    ((d.sample size).1).values
      = (((⟨d.mean, d.std, none, d._rand⟩ : Normal).sample size).1).values.map
          (fun x => if x < m then m else x) ∧
    (∀ n, size = some n → ((d.sample size).1).values.length = n) := by
  cases size with
  | none =>
      refine ⟨?_, ?_, ?_⟩
      · intro v hv
        simp only [Normal.sample, hm, SampleResult.values, List.mem_singleton] at hv
        subst hv
        exact le_max_right _ _
      · simp [Normal.sample, hm, SampleResult.values, max_eq_if_lt]
      · intro n hn
        exact Option.noConfusion hn
  | some k =>
      refine ⟨?_, ?_, ?_⟩
      · intro v hv
        simp only [Normal.sample, hm, SampleResult.values] at hv
        rcases List.mem_map.1 hv with ⟨x, _, hx⟩
        subst hx
        by_cases hxm : x < m
        · rw [if_pos hxm]
        · rw [if_neg hxm]; exact not_lt.1 hxm
      · simp [Normal.sample, hm, SampleResult.values]
      · intro n hn
        obtain rfl : k = n := Option.some.inj hn
        simp only [Normal.sample, hm, SampleResult.values, List.length_map]
        exact nextGaussList_length k d._rand

/-- Witness for C1 at `Normal(mean=60, std=15, minimum=0, random_state=42)`
and `size=3`. -/
theorem normal_sample_truncation_witness :
    (Normal.init 60 15 (some 0) (some 42)).minimum = some 0 ∧
    ∀ v ∈ (((Normal.init 60 15 (some 0) (some 42)).sample (some 3)).1).values,
      (0 : ℚ) ≤ v :=
  ⟨rfl, (normal_sample_truncation (Normal.init 60 15 (some 0) (some 42)) 0 rfl
    (some 3)).1⟩

/-- Claim C3: the `__setattr__` generated by `@dataclass(frozen=True)` rejects
every attempted attribute reassignment on a `Scenario` instance with a
`FrozenInstanceError`; no operation changes any field binding. -/
theorem scenario_setattr_frozen {α : Type} (s : Scenario) (name : String) (v : α) :
    Scenario.setAttr s name v
      = Except.error ("FrozenInstanceError: cannot assign to field " ++ name) := rfl

/-- Amended C5: neither constructor validates its parameters: for every
parameter combination (including `std < 0` for `Normal` and
`minimum > maximum` for `Uniform`) construction succeeds and stores the
parameters unchanged, with no coercion. -/
theorem dist_init_never_validates (mean std : ℚ) (minimum : Option ℚ)
    (umin umax : ℚ) (s1 s2 : Option Nat) :
    (Normal.init mean std minimum s1).mean = mean ∧
    (Normal.init mean std minimum s1).std = std ∧
    (Normal.init mean std minimum s1).minimum = minimum ∧
    (Uniform.init umin umax s2).minimum = umin ∧
    (Uniform.init umin umax s2).maximum = umax :=
  ⟨rfl, rfl, rfl, rfl, rfl⟩

/-- Counterexample to C5 as stated: `Normal(std=-1)` and `Uniform(5, 3)`
construct successfully — the invalid parameters are stored as given, no
validation error is raised. -/
theorem dist_init_never_validates_cex :
    (Normal.init 0 (-1) none (some 0)).std = -1 ∧
    (Uniform.init 5 3 (some 0)).minimum = 5 ∧
    (Uniform.init 5 3 (some 0)).maximum = 3 := by
  exact ⟨rfl, rfl, rfl⟩

/-- Claim C9: `sample` only advances the private generator state: the
distribution parameters (`Normal`'s mean, std and minimum; `Uniform`'s
minimum and maximum) are unchanged by every `sample` call, for every `size`. -/
theorem sample_frame_parameters (d : Normal) (u : Uniform) (size : Option Nat) :
    ((d.sample size).2.mean = d.mean ∧ (d.sample size).2.std = d.std ∧
     (d.sample size).2.minimum = d.minimum) ∧
    ((u.sample size).2.minimum = u.minimum ∧ (u.sample size).2.maximum = u.maximum) := by
  cases size <;> exact ⟨⟨rfl, rfl, rfl⟩, rfl, rfl⟩

/-- Claim C2: two distribution instances freshly constructed with the same
variant, the same parameters and the same integer seed, allocated separately
on the heap, return identical outputs call for call under any equal sequence
of `sample` calls (same `size` arguments, same order). -/
theorem dist_sample_reproducible (p : DistParams) (s : Nat) (h0 : Heap)
    (calls : List (Option Nat)) :
    (Heap.runCalls (Heap.alloc (Heap.alloc h0 (mkDist p (some s))).2
        (mkDist p (some s))).2 (Heap.alloc h0 (mkDist p (some s))).1 calls).1
      = (Heap.runCalls (Heap.alloc (Heap.alloc h0 (mkDist p (some s))).2
          (mkDist p (some s))).2 (Heap.alloc (Heap.alloc h0 (mkDist p (some s))).2
            (mkDist p (some s))).1 calls).1 := by
  have h1 : (Heap.alloc (Heap.alloc h0 (mkDist p (some s))).2
      (mkDist p (some s))).2.objs[(Heap.alloc h0 (mkDist p (some s))).1]?
        = some (mkDist p (some s)) := by
    show ((h0.objs ++ [mkDist p (some s)]) ++ [mkDist p (some s)])[h0.objs.length]?
      = some (mkDist p (some s))
    rw [List.getElem?_append_left (by simp)]
    exact List.getElem?_concat_length _ _
  have h2 : (Heap.alloc (Heap.alloc h0 (mkDist p (some s))).2
      (mkDist p (some s))).2.objs[(Heap.alloc (Heap.alloc h0 (mkDist p (some s))).2
        (mkDist p (some s))).1]? = some (mkDist p (some s)) := by
    show ((h0.objs ++ [mkDist p (some s)])
      ++ [mkDist p (some s)])[(h0.objs ++ [mkDist p (some s)]).length]?
        = some (mkDist p (some s))
    exact List.getElem?_concat_length _ _
  rw [runCalls_fst_of_get calls _ _ _ h1, runCalls_fst_of_get calls _ _ _ h2]

/-- Claim C4 evaluated at the failing input: the Distribution-valued fields of
two all-default `Scenario` instances are the *same* references — the default
objects were created once at class-definition time — and sampling through the
first instance's `time_to_infection` mutates the object the second instance's
`time_to_infection` denotes, changing its future sample output. -/
theorem scenario_default_distributions_shared :
    defaultScenarioPair.1.time_to_infection
      = defaultScenarioPair.2.1.time_to_infection ∧
    defaultScenarioPair.1.time_positive = defaultScenarioPair.2.1.time_positive ∧
    defaultScenarioPair.1.requiring_inpatient_random
      = defaultScenarioPair.2.1.requiring_inpatient_random ∧
    defaultScenarioPair.1.time_pos_before_inpatient
      = defaultScenarioPair.2.1.time_pos_before_inpatient ∧
    defaultScenarioPair.1.time_inpatient = defaultScenarioPair.2.1.time_inpatient ∧
    (defaultScenarioPair.2.2.sampleAt defaultScenarioPair.1.time_to_infection
        (some 1)).2.objs[defaultScenarioPair.2.1.time_to_infection]?
      ≠ defaultScenarioPair.2.2.objs[defaultScenarioPair.2.1.time_to_infection]? ∧
    ((defaultScenarioPair.2.2.sampleAt defaultScenarioPair.1.time_to_infection
        (some 1)).2.sampleAt defaultScenarioPair.2.1.time_to_infection none).1
      ≠ (defaultScenarioPair.2.2.sampleAt defaultScenarioPair.2.1.time_to_infection
          none).1 := by
  refine ⟨rfl, rfl, rfl, rfl, rfl, by decide, ?_⟩
  simp only [defaultScenarioPair, evalScenarioClassBody, Heap.empty, Heap.alloc,
    mkDist, Normal.init, Uniform.init, Scenario.mkDefault, Heap.sampleAt,
    DistObj.sample, Normal.sample, RandomState.nextGauss,
    RandomState.nextGaussList, rawGauss, rawUnit, List.nil_append,
    List.cons_append, List.set]
  norm_num [Heap.sampleAt, DistObj.sample, Normal.sample, RandomState.nextGauss,
    RandomState.nextGaussList, rawGauss, rawUnit]

/-- Amended C6: for a `Uniform` with `minimum < maximum`, every value produced
by `sample` (for every `size`) lies in `[minimum, maximum)`, the draws being
passed through with no post-processing; when `minimum = maximum` every
produced value equals `minimum`, which lies outside the empty interval. -/
theorem uniform_sample_bounds (d : Uniform) (hlt : d.minimum < d.maximum)
    (size : Option Nat) :
    ∀ v ∈ ((d.sample size).1).values, d.minimum ≤ v ∧ v < d.maximum := by
  have key : ∀ u : ℚ, 0 ≤ u → u < 1 →
      d.minimum ≤ d.minimum + u * (d.maximum - d.minimum) ∧
      d.minimum + u * (d.maximum - d.minimum) < d.maximum := by
    intro u h0 h1
    constructor
    · nlinarith
    · nlinarith
  cases size with
  | none =>
      intro v hv
      simp only [Uniform.sample, SampleResult.values, List.mem_singleton] at hv
      subst hv
      rcases rawUnit_mem_Ico d._rand.seed d._rand.idx with ⟨h0, h1⟩
      exact key _ h0 h1
  | some n =>
      intro v hv
      simp only [Uniform.sample, SampleResult.values] at hv
      rcases List.mem_map.1 hv with ⟨u, hu, rfl⟩
      rcases nextUnitList_mem n d._rand u hu with ⟨h0, h1⟩
      exact key u h0 h1

/-- Witness for the amended C6 at `Uniform(0, 1, random_state=7)`, `size=2`. -/
theorem uniform_sample_bounds_witness :
    (Uniform.init 0 1 (some 7)).minimum < (Uniform.init 0 1 (some 7)).maximum ∧
    ∀ v ∈ (((Uniform.init 0 1 (some 7)).sample (some 2)).1).values,
      (Uniform.init 0 1 (some 7)).minimum ≤ v
        ∧ v < (Uniform.init 0 1 (some 7)).maximum :=
  ⟨by decide, uniform_sample_bounds (Uniform.init 0 1 (some 7)) (by decide) (some 2)⟩

/-- Counterexample to C6 as stated: `Uniform(5, 5)` satisfies
`minimum ≤ maximum`, yet its sample is the scalar `5`, which does not lie in
the half-open interval `[5, 5)`. -/
theorem uniform_sample_bounds_cex :
    (Uniform.init 5 5 (some 0)).minimum ≤ (Uniform.init 5 5 (some 0)).maximum ∧
    ((Uniform.init 5 5 (some 0)).sample none).1 = SampleResult.scalar 5 ∧
    ¬((5 : ℚ) < (Uniform.init 5 5 (some 0)).maximum) := by
  refine ⟨le_refl _, ?_, lt_irrefl _⟩
  simp [Uniform.sample, Uniform.init, RandomState.nextUnit, rawUnit]

/-- Amended C7: `mortality_rand` and `will_be_infected_rand` are not dataclass
fields of `Scenario` (they carry no annotation); every instance resolves them
to the same class-level `Uniform(0, 1)` objects, so their streams are shared
across all instances rather than owned per instance. -/
theorem mortality_infected_rand_class_attrs (s1 s2 : Scenario)
    (cls : ScenarioClassAttrs) :
    Scenario.mortalityRandAttr s1 cls = Scenario.mortalityRandAttr s2 cls ∧
    Scenario.willBeInfectedRandAttr s1 cls = Scenario.willBeInfectedRandAttr s2 cls ∧
    "mortality_rand" ∉ scenarioFieldNames ∧
    "will_be_infected_rand" ∉ scenarioFieldNames :=
  ⟨rfl, rfl, by decide, by decide⟩

/-- Counterexample to C7 as stated: on two all-default `Scenario` instances,
`mortality_rand` and `will_be_infected_rand` resolve to the *same* shared
reference (so the streams are not distinct per instance), and sampling the
first instance's `mortality_rand` mutates the object the second instance
sees. -/
theorem mortality_rand_shared_cex :
    Scenario.mortalityRandAttr defaultScenarioPair.1
        (evalScenarioClassBody Heap.empty).1
      = Scenario.mortalityRandAttr defaultScenarioPair.2.1
          (evalScenarioClassBody Heap.empty).1 ∧
    Scenario.willBeInfectedRandAttr defaultScenarioPair.1
        (evalScenarioClassBody Heap.empty).1
      = Scenario.willBeInfectedRandAttr defaultScenarioPair.2.1
          (evalScenarioClassBody Heap.empty).1 ∧
    (defaultScenarioPair.2.2.sampleAt (Scenario.mortalityRandAttr
        defaultScenarioPair.1 (evalScenarioClassBody Heap.empty).1)
        none).2.objs[Scenario.mortalityRandAttr defaultScenarioPair.2.1
          (evalScenarioClassBody Heap.empty).1]?
      ≠ defaultScenarioPair.2.2.objs[Scenario.mortalityRandAttr
          defaultScenarioPair.2.1 (evalScenarioClassBody Heap.empty).1]? := by
  decide

/-- Claim C8: for every distribution variant (Normal truncated or not, and
Uniform), `sample(None)` returns a single scalar and `sample(n)` for positive
`n` returns an ordered sequence of exactly `n` values. -/
theorem dist_sample_shape (o : DistObj) (n : Nat) (hn : 0 < n) :
    (∃ v, (o.sample none).1 = SampleResult.scalar v) ∧
    (∃ vs, (o.sample (some n)).1 = SampleResult.array vs ∧ vs.length = n) := by
  cases o with
  | normal d =>
      refine ⟨⟨_, rfl⟩, ⟨_, rfl, ?_⟩⟩
      cases hmin : d.minimum with
      | none => simp [DistObj.sample, Normal.sample, hmin, nextGaussList_length]
      | some m => simp [DistObj.sample, Normal.sample, hmin, nextGaussList_length]
  | uniform d =>
      refine ⟨⟨_, rfl⟩, ⟨_, rfl, ?_⟩⟩
      simp [DistObj.sample, Uniform.sample, nextUnitList_length]

/-- Witness for C8 at a truncated `Normal(60, 15, 0, random_state=42)` and
`n = 2`. -/
theorem dist_sample_shape_witness :
    0 < 2 ∧
    (∃ v, ((mkDist (DistParams.normalP 60 15 (some 0)) (some 42)).sample none).1
        = SampleResult.scalar v) ∧
    (∃ vs, ((mkDist (DistParams.normalP 60 15 (some 0)) (some 42)).sample
        (some 2)).1 = SampleResult.array vs ∧ vs.length = 2) :=
  ⟨by decide,
   (dist_sample_shape (mkDist (DistParams.normalP 60 15 (some 0)) (some 42)) 2
     (by decide)).1,
   (dist_sample_shape (mkDist (DistParams.normalP 60 15 (some 0)) (some 42)) 2
     (by decide)).2⟩

/-- Claim C10: two all-default `Scenario` instances compare equal under the
dataclass-generated structural equality, immediately after construction (the
scalar fields carry equal values and the Distribution-valued fields carry the
same shared references). -/
theorem scenario_default_dataclass_eq :
    Scenario.dataclassEq defaultScenarioPair.1 defaultScenarioPair.2.1 = true := by
  simp [defaultScenarioPair, Scenario.dataclassEq]

end SimParams
